import Mathlib

/-!
Verification of the parliament-watch-api caching and enrichment code.

This file gives a shallow embedding of the relevant parts of
`src/routes/members.js` and `services/proxy.js` and proves the spec's
claims about them. Network fetches are modelled by oracle functions
returning `Except String _` (an `Except.error` is a thrown/rejected
request, carrying the JS error message); handlers return their HTTP
response together with the list of cache writes they perform.
-/

namespace ParliamentWatch

/-- JS `str.split(sep)` for a single-character separator, on character lists.
Splitting the empty string yields one empty piece, and a separator at either
end yields an empty piece there, exactly as in JavaScript. -/
def splitSlash : List Char → List (List Char)
  | [] => [[]]
  | c :: rest =>
    match splitSlash rest with
    | [] => [[]]
    | h :: t => if c = '/' then [] :: h :: t else (c :: h) :: t

/-- JS substring containment (`String.prototype.includes`) on character
lists: `pat` occurs contiguously somewhere in the subject. -/
def containsSub (pat : List Char) : List Char → Bool
  | [] => pat.isPrefixOf ([] : List Char)
  | c :: rest => pat.isPrefixOf (c :: rest) || containsSub pat rest

/-- JS `endpoint.includes(pat)` on Lean strings. -/
def strIncludes (s pat : String) : Bool :=
  containsSub pat.toList s.toList

/-- JS `endpoint.endsWith(pat)` on Lean strings. -/
def strEndsWith (s pat : String) : Bool :=
  pat.toList.isSuffixOf s.toList

/-- The three TTL tiers of `CACHE_TTL` in `services/proxy.js`. -/
inductive TTLTier where
  | LIST
  | DETAIL
  | MEMBER_VOTES
deriving DecidableEq, Repr

/-- The fixed millisecond durations of `CACHE_TTL` in `services/proxy.js`. -/
def CACHE_TTL : TTLTier → Nat
  | .LIST => 5 * 60 * 1000
  | .DETAIL => 30 * 60 * 1000
  | .MEMBER_VOTES => 10 * 60 * 1000

/-- The tier-selection chain of `getCacheExpiration` in `services/proxy.js`:
the `if`/`else if` rules checked in order, first match winning, defaulting
to `LIST`. -/
def classifyTTL (endpoint : String) : TTLTier :=
  if strIncludes endpoint "/votes/" && !strEndsWith endpoint "/votes/" then .DETAIL
  else if strIncludes endpoint "/bills/" && !strEndsWith endpoint "/bills/" then .DETAIL
  else if strIncludes endpoint "/politicians/" && strIncludes endpoint "/votes/" then .MEMBER_VOTES
  else if strIncludes endpoint "/politicians/" && !strEndsWith endpoint "/politicians/" then .DETAIL
  else .LIST

/-- `getCacheExpiration` from `services/proxy.js`: `Date.now() + ttl`, with
the current instant passed explicitly as `now` (milliseconds). -/
def getCacheExpiration (endpoint : String) (now : Nat) : Nat :=
  now + CACHE_TTL (classifyTTL endpoint)

/-- One ballot object from the upstream ballots collection: the two fields
the handlers read (`vote_url`, `ballot`). -/
structure Ballot where
  vote_url : String
  ballot : String
deriving DecidableEq, Repr

/-- The bill sub-object of an upstream vote detail (`voteData.bill.number`). -/
structure Bill where
  number : String
deriving DecidableEq, Repr

/-- The `description` field of an upstream vote detail: either a plain
string or a localized object whose English variant is `.en` (the JS code
tests `typeof voteData.description === 'object'`). -/
inductive Description where
  | plain (s : String)
  | localized (en : String)
deriving DecidableEq, Repr

/-- An upstream vote-detail record: the fields the handlers read. `bill`
and `result` are optional (`none` models JS `null`/`undefined`). -/
structure VoteData where
  bill : Option Bill
  description : Description
  date : String
  result : Option String
  passed : Bool
deriving DecidableEq, Repr

/-- JS `a || b` where `a` is an optional string: absent and the empty
string are falsy, any other string is returned as-is. -/
def jsOrString : Option String → String → String
  | some s, b => if s = "" then b else s
  | none, b => b

/-- The `vote_url` parsing step of the enrichment loops
(`src/routes/members.js`): split on `/`, drop falsy (empty) parts, and when
at least 3 parts remain take `parts[length-3]` as the session and
`parts[length-1]` as the number; otherwise the parse fails. -/
def parseVoteUrl (vote_url : String) : Option (String × String) :=
  let voteUrlParts := ((splitSlash vote_url.toList).map String.mk).filter (fun s => s ≠ "")
  if 3 ≤ voteUrlParts.length then
    some (voteUrlParts.getD (voteUrlParts.length - 3) "",
          voteUrlParts.getD (voteUrlParts.length - 1) "")
  else none

/-- The object pushed by the real-votes handler for each ballot. `error`
is `some` only in the per-item catch branch; `none` models the field being
absent. The raw echo fields (`raw_ballot`, `raw_vote`) are recoverable from
the inputs and are not modelled. -/
structure EnrichedVote where
  id : String
  vote_url : String
  bill : String
  bill_number : Option String
  description : String
  date : String
  vote : String
  result : String
  error : Option String
deriving DecidableEq, Repr

/-- The successful-merge push of the real-votes handler (members.js,
`enrichedVotes.push` in the `voteUrlParts.length >= 3` branch). -/
def mergeVote (ballot : Ballot) (voteSession voteNumber : String)
    (voteData : VoteData) : EnrichedVote :=
  { id := voteSession ++ "-" ++ voteNumber
    vote_url := ballot.vote_url
    bill := match voteData.bill with
      | some b => "Bill " ++ b.number
      | none => "Motion"
    bill_number := voteData.bill.map Bill.number
    description := match voteData.description with
      | .localized en => en
      | .plain s => s
    date := voteData.date
    vote := if ballot.ballot = "Yes" then "Yea"
      else if ballot.ballot = "No" then "Nay"
      else ballot.ballot
    result := jsOrString voteData.result (if voteData.passed then "Passed" else "Failed")
    error := none }

/-- The placeholder pushed by the real-votes handler when `vote_url` has
fewer than 3 non-empty parts (the `Invalid vote_url format` branch). -/
def invalidUrlVote (ballot : Ballot) : EnrichedVote :=
  { id := ballot.vote_url
    vote_url := ballot.vote_url
    bill := "Unknown"
    bill_number := none
    description := "Vote details unavailable"
    date := "Unknown date"
    vote := ballot.ballot
    result := "Unknown"
    error := none }

/-- The placeholder pushed by the real-votes handler's per-item `catch`
branch, carrying the failure message. -/
def errorVote (ballot : Ballot) (msg : String) : EnrichedVote :=
  { id := ballot.vote_url
    vote_url := ballot.vote_url
    bill := "Unknown"
    bill_number := none
    description := "Error fetching vote details"
    date := "Unknown date"
    vote := ballot.ballot
    result := "Unknown"
    error := some msg }

/-- The item pushed by the real-votes handler's second loop for each ballot
beyond the enrichment cap (`bill: 'Motion'`, no fetch). -/
def unenrichedVote (ballot : Ballot) : EnrichedVote :=
  { id := ballot.vote_url
    vote_url := ballot.vote_url
    bill := "Motion"
    bill_number := none
    description := "Additional vote (details not loaded)"
    date := "Unknown date"
    vote := ballot.ballot
    result := "Unknown"
    error := none }

/-- One iteration of the real-votes enrichment loop: parse the `vote_url`,
and if it parses, perform the per-vote fetch (modelled by the oracle
`fetchVote`, keyed by the parsed session and number). The second component
records the per-vote fetch requests this iteration issued. -/
def enrichStep (fetchVote : String × String → Except String VoteData)
    (ballot : Ballot) : EnrichedVote × List (String × String) :=
  match parseVoteUrl ballot.vote_url with
  | none => (invalidUrlVote ballot, [])
  | some sn =>
    match fetchVote sn with
    | .ok voteData => (mergeVote ballot sn.1 sn.2 voteData, [sn])
    | .error msg => (errorVote ballot msg, [sn])

/-- The real-votes response body (`responseData` in members.js): enriched
items, upstream pagination passed through verbatim (type `π`), and the
`meta` fields. -/
structure RealVotesResult (π : Type) where
  objects : List EnrichedVote
  pagination : π
  meta_member : String
  meta_enriched_count : Nat
  meta_total_count : Nat
deriving DecidableEq, Repr

/-- The enrichment section of the real-votes handler (steps after a
non-empty ballot list is in hand): enrich the first `min 10 n` ballots in
order, append the remaining ballots unenriched, and assemble the response.
The second component is the list of per-vote fetch requests issued. -/
def realVotesPipeline (π : Type)
    (fetchVote : String × String → Except String VoteData)
    (memberName : String) (ballots : List Ballot) (pagination : π) :
    RealVotesResult π × List (String × String) :=
  let maxBallotsToEnrich := min 10 ballots.length
  let steps := (ballots.take maxBallotsToEnrich).map (enrichStep fetchVote)
  ({ objects := steps.map Prod.fst ++ (ballots.drop maxBallotsToEnrich).map unenrichedVote
     pagination := pagination
     meta_member := memberName
     meta_enriched_count := maxBallotsToEnrich
     meta_total_count := ballots.length },
   (steps.map Prod.snd).flatten)

/-- The upstream ballots-collection payload: `objects` is `none` when the
field is absent (`!ballotsData.objects`), and the pagination object is
carried verbatim. -/
structure BallotsData (π : Type) where
  objects : Option (List Ballot)
  pagination : π
deriving DecidableEq, Repr

/-- HTTP response of the real-votes endpoint. -/
inductive RVResponse (π : Type) where
  | json (body : RealVotesResult π)
  | notFound (error : String)
  | serverError (error : String) (details : String)
deriving DecidableEq, Repr

/-- The real-votes handler (`GET /:memberName/real-votes`), from the cache
probe on: `cached` is the ephemeral-cache probe result, `fetchBallots` the
outcome of the ballot-list fetch, `fetchVote` the per-vote fetch oracle.
Returns the response and the ephemeral-cache writes (key, value, TTL ms). -/
def realVotesHandler (π : Type) (cached : Option (RealVotesResult π))
    (fetchBallots : Except String (BallotsData π))
    (fetchVote : String × String → Except String VoteData)
    (memberName : String) :
    RVResponse π × List (String × RealVotesResult π × Nat) :=
  match cached with
  | some cachedData => (.json cachedData, [])
  | none =>
    match fetchBallots with
    | .error msg => (.serverError "Failed to fetch ballot data" msg, [])
    | .ok ballotsData =>
      match ballotsData.objects with
      | none => (.notFound "No voting history found for this member", [])
      | some objs =>
        if objs.length = 0 then
          (.notFound "No voting history found for this member", [])
        else
          let responseData := (realVotesPipeline π fetchVote memberName objs ballotsData.pagination).1
          (.json responseData,
           [("member_real_votes_" ++ memberName, responseData, 3600000)])

/-- An item of the ballots endpoint's response: the original ballot, plus
the vote-detail fields the success branch spreads in. In the
parse-failure and catch branches the handler pushes the plain ballot, so
all detail fields stay `none` (absent). -/
structure EnrichedBallot where
  ballot : Ballot
  vote_details : Option VoteData
  date : Option String
  description : Option Description
  result : Option String
  bill_number : Option String
deriving DecidableEq, Repr

/-- The plain-ballot push of the ballots handler (parse failure, per-item
catch, and the beyond-cap loop): no vote-detail fields attached. -/
def rawBallotItem (ballot : Ballot) : EnrichedBallot :=
  { ballot := ballot
    vote_details := none
    date := none
    description := none
    result := none
    bill_number := none }

/-- One iteration of the ballots endpoint's enrichment loop. -/
def enrichBallotStep (fetchVote : String × String → Except String VoteData)
    (ballot : Ballot) : EnrichedBallot × List (String × String) :=
  match parseVoteUrl ballot.vote_url with
  | none => (rawBallotItem ballot, [])
  | some sn =>
    match fetchVote sn with
    | .ok voteData =>
      ({ ballot := ballot
         vote_details := some voteData
         date := some voteData.date
         description := some voteData.description
         result := voteData.result
         bill_number := voteData.bill.map Bill.number }, [sn])
    | .error _ => (rawBallotItem ballot, [sn])

/-- The enrichment section of the ballots handler: enrich the first
`min 10 n` ballots, then append the remaining ballots as-is. The second
component is the list of per-vote fetch requests issued. -/
def ballotsPipeline (fetchVote : String × String → Except String VoteData)
    (ballots : List Ballot) :
    List EnrichedBallot × List (String × String) :=
  let maxBallotsToEnrich := min 10 ballots.length
  let steps := (ballots.take maxBallotsToEnrich).map (enrichBallotStep fetchVote)
  (steps.map Prod.fst ++ (ballots.drop maxBallotsToEnrich).map rawBallotItem,
   (steps.map Prod.snd).flatten)

/-- HTTP response of the ballots endpoint. -/
inductive BResponse (π : Type) where
  | json (objects : List EnrichedBallot) (pagination : π)
  | notFound (error : String)
  | serverError (error : String) (details : String)
deriving DecidableEq, Repr

/-- The ballots handler (`GET /:memberName/ballots`). A ballot-list fetch
failure is caught by the handler's outer `catch`, which answers 500 with
`error: 'Error fetching voting history'` and the message as `details`. -/
def ballotsHandler (π : Type) (cached : Option (List EnrichedBallot × π))
    (fetchBallots : Except String (BallotsData π))
    (fetchVote : String × String → Except String VoteData)
    (memberName : String) :
    BResponse π × List (String × (List EnrichedBallot × π) × Nat) :=
  match cached with
  | some cachedData => (.json cachedData.1 cachedData.2, [])
  | none =>
    match fetchBallots with
    | .error msg => (.serverError "Error fetching voting history" msg, [])
    | .ok ballotsData =>
      match ballotsData.objects with
      | none => (.notFound "No voting history found for this member", [])
      | some objs =>
        if objs.length = 0 then
          (.notFound "No voting history found for this member", [])
        else
          let enriched := (ballotsPipeline fetchVote objs).1
          (.json enriched ballotsData.pagination,
           [("member_ballots_" ++ memberName, (enriched, ballotsData.pagination), 3600000)])

/-- Body of a member-votes pass-through response: either the upstream (or
cached) payload, or the handler's graceful-degradation fallback with an
empty `objects` array, a zero count, null page links, the echoed
`limit`/`offset`, and a message. -/
inductive VotesBody (α : Type) where
  | data (d : α)
  | emptyFallback (objects : List α) (count : Nat)
      (next previous : Option String) (limit offset : Nat) (message : String)
deriving DecidableEq, Repr

/-- A member-votes pass-through response: HTTP status and body. -/
structure VotesResponse (α : Type) where
  status : Nat
  body : VotesBody α
deriving DecidableEq, Repr

/-- The member-votes pass-through handler (`GET /:memberName/votes`).
`dbFind` is the durable-cache probe result (the payload type `α` is
opaque), `fetchResult` the outcome of `fetchFromAPI`. Every path answers
with `res.json(...)`, i.e. status 200; an upstream failure is downgraded
to the empty fallback body. Returns the response and the durable-cache
writes (key, payload). -/
def memberVotesHandler (α : Type) (dbFind : Option α)
    (fetchResult : Except String α) (memberName : String)
    (limit offset : Nat) : VotesResponse α × List (String × α) :=
  let cacheKey := "/politicians/" ++ memberName ++ "/votes/-" ++
    toString limit ++ "-" ++ toString offset
  match dbFind with
  | some payload => ({ status := 200, body := .data payload }, [])
  | none =>
    match fetchResult with
    | .ok apiData => ({ status := 200, body := .data apiData }, [(cacheKey, apiData)])
    | .error _ =>
      ({ status := 200
         body := .emptyFallback [] 0 none none limit offset
           ("No votes available for " ++ memberName ++ " or API error occurred") }, [])

/-- A row of the durable (MongoDB-backed) cache: `url` is the composite
cache key, `expires` the absolute expiry instant in milliseconds, `data`
the stored payload. -/
structure MemberRecord (α : Type) where
  url : String
  expires : Nat
  data : α
deriving DecidableEq, Repr

/-- The durable-cache lookup the handlers issue:
`Member.findOne({ url, expires: { $gt: new Date() } })` — the first stored
row whose key matches and whose expiry instant is strictly in the future.
The store is modelled as the list of rows in insertion order. -/
def memberFindOne (α : Type) (store : List (MemberRecord α)) (url : String)
    (now : Nat) : Option (MemberRecord α) :=
  store.find? (fun r => r.url == url && decide (now < r.expires))

/-- Identifier environment at module scope of `services/proxy.js`: the only
base-URL constant defined there is `API_BASE_URL` (line 5). Looking up any
other name yields `none` (a JS `ReferenceError` at use). -/
def proxyModuleBinding (name : String) : Option String :=
  if name = "API_BASE_URL" then some "https://api.openparliament.ca" else none

/-- `fetchFromAPI` from `services/proxy.js`. The body first resolves the
identifier `OPENPARLIAMENT_BASE_URL` (as written on line 23); if the
binding is missing this throws `ReferenceError: OPENPARLIAMENT_BASE_URL is
not defined`, which the function's own `catch` rethrows with the
`Failed to fetch data from OpenParliament API:` prefix. `doFetch` models
the actual network request against the built URL. -/
def fetchFromAPI (α : Type) (doFetch : String → Except String α)
    (path : String) : Except String α :=
  let attempt : Except String α :=
    match proxyModuleBinding "OPENPARLIAMENT_BASE_URL" with
    | none => .error "OPENPARLIAMENT_BASE_URL is not defined"
    | some base => doFetch (base ++ path)
  match attempt with
  | .ok data => .ok data
  | .error msg => .error ("Failed to fetch data from OpenParliament API: " ++ msg)

/-- HTTP response of the member-list endpoint (`GET /`): the payload on
success, or 500 with `{ error: error.message }`. -/
inductive MembersResponse (α : Type) where
  | json (d : α)
  | serverError (error : String)
deriving DecidableEq, Repr

/-- The member-list handler (`GET /`) on the no-search path: durable-cache
probe, then `fetchFromAPI('/politicians/', params)` on a miss; a thrown
fetch error reaches the handler's `catch`, answering 500 with the message.
Returns the response and the durable-cache writes. -/
def membersHandler (α : Type) (dbFind : Option (MemberRecord α))
    (doFetch : String → Except String α) (cacheKey : String) (now : Nat) :
    MembersResponse α × List (MemberRecord α) :=
  match dbFind with
  | some record => (.json record.data, [])
  | none =>
    match fetchFromAPI α doFetch "/politicians/" with
    | .ok apiData =>
      (.json apiData,
       [{ url := cacheKey, expires := getCacheExpiration "/politicians/" now,
          data := apiData }])
    | .error msg => (.serverError msg, [])

/-! Helper lemmas shared by several results below. -/

/-- Positional description of a capped map: mapping `f` over the first `c`
elements and `g` over the rest acts elementwise. -/
theorem cappedMap_getElem {α β : Type} (f g : α → β) (c : Nat) (l : List α)
    (i : Nat) :
    ((l.take c).map f ++ (l.drop c).map g)[i]? =
      (l[i]?).map (fun a => if i < min c l.length then f a else g a) := by
  by_cases hi : i < min c l.length
  · rw [List.getElem?_append_left (by simp; omega)]
    rw [List.getElem?_map, List.getElem?_take]
    have hc : i < c := lt_of_lt_of_le hi (Nat.min_le_left _ _)
    cases h : l[i]? <;> simp [hc, hi, h]
  · rw [List.getElem?_append_right (by simp; omega)]
    rw [List.getElem?_map, List.getElem?_drop]
    simp only [List.length_map, List.length_take]
    by_cases hl : i < l.length
    · have hmin : min c l.length = c := by omega
      have harg : c + (i - min c l.length) = i := by omega
      rw [harg]
      cases h : l[i]? <;> simp [hi, h]
    · have h1 : l[i]? = none := by
        rw [List.getElem?_eq_none_iff]; omega
      have h2 : l[c + (i - min c l.length)]? = none := by
        rw [List.getElem?_eq_none_iff]; omega
      simp [h1, h2]

/-- The objects list of the real-votes pipeline, elementwise: position `i`
is the enrichment of ballot `i` when `i` is inside the cap, and the
unenriched form of ballot `i` past the cap. -/
theorem realVotes_objects_getElem (π : Type)
    (fetchVote : String × String → Except String VoteData)
    (memberName : String) (ballots : List Ballot) (pagination : π) (i : Nat) :
    ((realVotesPipeline π fetchVote memberName ballots pagination).1).objects[i]? =
      (ballots[i]?).map (fun b =>
        if i < min 10 ballots.length then (enrichStep fetchVote b).1
        else unenrichedVote b) := by
  have hmin : min (min 10 ballots.length) ballots.length = min 10 ballots.length := by
    omega
  have h := cappedMap_getElem (fun b => (enrichStep fetchVote b).1) unenrichedVote
    (min 10 ballots.length) ballots i
  rw [hmin] at h
  simpa [realVotesPipeline, List.map_map, Function.comp] using h

/-- The objects list of the ballots pipeline, elementwise. -/
theorem ballots_objects_getElem
    (fetchVote : String × String → Except String VoteData)
    (ballots : List Ballot) (i : Nat) :
    ((ballotsPipeline fetchVote ballots).1)[i]? =
      (ballots[i]?).map (fun b =>
        if i < min 10 ballots.length then (enrichBallotStep fetchVote b).1
        else rawBallotItem b) := by
  have hmin : min (min 10 ballots.length) ballots.length = min 10 ballots.length := by
    omega
  have h := cappedMap_getElem (fun b => (enrichBallotStep fetchVote b).1) rawBallotItem
    (min 10 ballots.length) ballots i
  rw [hmin] at h
  simpa [ballotsPipeline, List.map_map, Function.comp] using h

/-- The real-votes pipeline emits one item per source ballot. -/
theorem realVotes_objects_length (π : Type)
    (fetchVote : String × String → Except String VoteData)
    (memberName : String) (ballots : List Ballot) (pagination : π) :
    ((realVotesPipeline π fetchVote memberName ballots pagination).1).objects.length =
      ballots.length := by
  simp [realVotesPipeline]

/-! Claim theorems. -/

/-- C1: for every ballot list of length `n`, the real-votes pipeline
produces an items sequence with exactly `n` elements whose element at each
position `i` is derived from the ballot at position `i` (the per-item
enrichment of ballot `i` inside the cap, its unenriched form past the
cap), and whose meta reports `enriched_count = min 10 n` and
`total_count = n`. -/
theorem realVotes_result_shape (π : Type)
    (fetchVote : String × String → Except String VoteData)
    (memberName : String) (ballots : List Ballot) (pagination : π) :
    ((realVotesPipeline π fetchVote memberName ballots pagination).1).objects.length =
        ballots.length ∧
    ((realVotesPipeline π fetchVote memberName ballots pagination).1).meta_enriched_count =
        min 10 ballots.length ∧
    ((realVotesPipeline π fetchVote memberName ballots pagination).1).meta_total_count =
        ballots.length ∧
    ∀ i : Nat,
      ((realVotesPipeline π fetchVote memberName ballots pagination).1).objects[i]? =
        (ballots[i]?).map (fun b =>
          if i < min 10 ballots.length then (enrichStep fetchVote b).1
          else unenrichedVote b) :=
  ⟨realVotes_objects_length π fetchVote memberName ballots pagination,
   rfl, rfl,
   fun i => realVotes_objects_getElem π fetchVote memberName ballots pagination i⟩

/-- C2: at the vote-reference format the code itself documents as typical
(`/votes/44-1/928/`, three non-empty segments), the parser's session
component is `parts[length - 3]`, which is the segment `"votes"` — not
the second-to-last segment `"44-1"` that the last-two-segments reading
(and the code's own inline comment) call for. The number component is the
last segment, `"928"`. -/
theorem parseVoteUrl_typical_input :
    parseVoteUrl "/votes/44-1/928/" = some ("votes", "928") ∧
    ("votes" : String) ≠ "44-1" := by
  constructor
  · decide
  · decide

/-- C3: for every ballot inside the enrichment cap whose per-item detail
fetch fails, the pipeline emits the catch-branch placeholder at that
ballot's position, carrying the original ballot's choice unchanged and the
failure message as the inline `error` field; the items list still has one
item per ballot, and every other position holds exactly the item it would
hold anyway — no per-item failure removes an item, aborts the loop, or
changes the (non-error) top-level response shape. -/
theorem perItemFailure_absorbed (π : Type)
    (fetchVote : String × String → Except String VoteData)
    (memberName : String) (ballots : List Ballot) (pagination : π)
    (i : Nat) (b : Ballot) (sn : String × String) (msg : String)
    (hb : ballots[i]? = some b) (hcap : i < min 10 ballots.length)
    (hparse : parseVoteUrl b.vote_url = some sn)
    (hfail : fetchVote sn = Except.error msg) :
    ((realVotesPipeline π fetchVote memberName ballots pagination).1).objects[i]? =
        some (errorVote b msg) ∧
    (errorVote b msg).vote = b.ballot ∧
    (errorVote b msg).error = some msg ∧
    ((realVotesPipeline π fetchVote memberName ballots pagination).1).objects.length =
        ballots.length ∧
    ∀ j : Nat, j ≠ i →
      ((realVotesPipeline π fetchVote memberName ballots pagination).1).objects[j]? =
        (ballots[j]?).map (fun c =>
          if j < min 10 ballots.length then (enrichStep fetchVote c).1
          else unenrichedVote c) := by
  refine ⟨?_, rfl, rfl,
    realVotes_objects_length π fetchVote memberName ballots pagination,
    fun j _ => realVotes_objects_getElem π fetchVote memberName ballots pagination j⟩
  rw [realVotes_objects_getElem, hb]
  simp [hcap, enrichStep, hparse, hfail]

/-- Witness for C3: a concrete one-ballot list whose single per-vote fetch
fails with message `timeout of 5000ms exceeded`; the resulting item is the
catch-branch placeholder carrying that message and the original choice. -/
theorem perItemFailure_absorbed_witness :
    ([({ vote_url := "/votes/44-1/928/", ballot := "Yes" } : Ballot)][0]? =
        some ({ vote_url := "/votes/44-1/928/", ballot := "Yes" } : Ballot)) ∧
    (0 < min 10 [({ vote_url := "/votes/44-1/928/", ballot := "Yes" } : Ballot)].length) ∧
    (parseVoteUrl "/votes/44-1/928/" = some ("votes", "928")) ∧
    ((fun _ => Except.error "timeout of 5000ms exceeded" :
        String × String → Except String VoteData) ("votes", "928") =
      Except.error "timeout of 5000ms exceeded") ∧
    ((realVotesPipeline Unit (fun _ => Except.error "timeout of 5000ms exceeded")
        "joe" [{ vote_url := "/votes/44-1/928/", ballot := "Yes" }] ()).1).objects[0]? =
      some (errorVote { vote_url := "/votes/44-1/928/", ballot := "Yes" }
        "timeout of 5000ms exceeded") :=
  ⟨by decide, by decide, by decide, rfl,
   (perItemFailure_absorbed Unit (fun _ => Except.error "timeout of 5000ms exceeded")
      "joe" [{ vote_url := "/votes/44-1/928/", ballot := "Yes" }] () 0
      { vote_url := "/votes/44-1/928/", ballot := "Yes" } ("votes", "928")
      "timeout of 5000ms exceeded" (by decide) (by decide) (by decide) rfl).1⟩

/-- C4: the successful merge maps choice `"Yes"` to `"Yea"` and `"No"` to
`"Nay"` and passes any other choice through; sets `bill` to
`"Bill <number>"` when the detail has a bill and to `"Motion"` otherwise;
takes the English variant of a localized description, else the raw string;
takes `result` from the detail when a (non-empty) result string is present,
else derives `"Passed"`/`"Failed"` from the boolean passed-flag. In
particular, choice `"Yes"` with no bill yields
`{vote := "Yea", bill := "Motion"}`. -/
theorem mergeVote_semantics (url choice voteSession voteNumber : String)
    (bl : Bill) (vd : VoteData) (en s r : String) :
    ((mergeVote { vote_url := url, ballot := "Yes" } voteSession voteNumber vd).vote
        = "Yea") ∧
    ((mergeVote { vote_url := url, ballot := "No" } voteSession voteNumber vd).vote
        = "Nay") ∧
    (choice ≠ "Yes" → choice ≠ "No" →
      (mergeVote { vote_url := url, ballot := choice } voteSession voteNumber vd).vote
        = choice) ∧
    ((mergeVote { vote_url := url, ballot := choice } voteSession voteNumber
        { vd with bill := some bl }).bill = "Bill " ++ bl.number) ∧
    ((mergeVote { vote_url := url, ballot := choice } voteSession voteNumber
        { vd with bill := none }).bill = "Motion") ∧
    ((mergeVote { vote_url := url, ballot := choice } voteSession voteNumber
        { vd with description := .localized en }).description = en) ∧
    ((mergeVote { vote_url := url, ballot := choice } voteSession voteNumber
        { vd with description := .plain s }).description = s) ∧
    (r ≠ "" →
      (mergeVote { vote_url := url, ballot := choice } voteSession voteNumber
        { vd with result := some r }).result = r) ∧
    ((mergeVote { vote_url := url, ballot := choice } voteSession voteNumber
        { vd with result := none }).result
        = if vd.passed then "Passed" else "Failed") ∧
    ((mergeVote { vote_url := url, ballot := "Yes" } voteSession voteNumber
        { vd with bill := none }).vote = "Yea") ∧
    ((mergeVote { vote_url := url, ballot := "Yes" } voteSession voteNumber
        { vd with bill := none }).bill = "Motion") := by
  refine ⟨by simp [mergeVote], by simp [mergeVote], ?_, by simp [mergeVote],
    by simp [mergeVote], by simp [mergeVote], by simp [mergeVote], ?_,
    by simp [mergeVote, jsOrString], by simp [mergeVote], by simp [mergeVote]⟩
  · intro h1 h2
    simp [mergeVote, h1, h2]
  · intro hr
    simp [mergeVote, jsOrString, hr]

/-- Witness for C4: concrete merges — a pass-through choice `"Paired"`, a
non-empty explicit result string `"Agreed to"`, and the headline scenario
(choice `"Yes"`, no bill → `"Yea"`/`"Motion"`). -/
theorem mergeVote_semantics_witness :
    (("Paired" : String) ≠ "Yes") ∧
    (("Paired" : String) ≠ "No") ∧
    (("Agreed to" : String) ≠ "") ∧
    ((mergeVote { vote_url := "/votes/44-1/928/", ballot := "Paired" } "44-1" "928"
        { bill := none, description := .plain "d", date := "2024-01-01",
          result := none, passed := true }).vote = "Paired") ∧
    ((mergeVote { vote_url := "/votes/44-1/928/", ballot := "Paired" } "44-1" "928"
        { bill := none, description := .plain "d", date := "2024-01-01",
          result := some "Agreed to", passed := true }).result = "Agreed to") ∧
    ((mergeVote { vote_url := "/votes/44-1/928/", ballot := "Yes" } "44-1" "928"
        { bill := none, description := .plain "d", date := "2024-01-01",
          result := none, passed := true }).vote = "Yea") ∧
    ((mergeVote { vote_url := "/votes/44-1/928/", ballot := "Yes" } "44-1" "928"
        { bill := none, description := .plain "d", date := "2024-01-01",
          result := none, passed := true }).bill = "Motion") :=
  ⟨by decide, by decide, by decide,
   (mergeVote_semantics "/votes/44-1/928/" "Paired" "44-1" "928" ⟨"C-56"⟩
      { bill := none, description := .plain "d", date := "2024-01-01",
        result := none, passed := true } "e" "d" "Agreed to").2.2.1
     (by decide) (by decide),
   (mergeVote_semantics "/votes/44-1/928/" "Paired" "44-1" "928" ⟨"C-56"⟩
      { bill := none, description := .plain "d", date := "2024-01-01",
        result := none, passed := true } "e" "d" "Agreed to").2.2.2.2.2.2.2.1
     (by decide),
   (mergeVote_semantics "/votes/44-1/928/" "Paired" "44-1" "928" ⟨"C-56"⟩
      { bill := none, description := .plain "d", date := "2024-01-01",
        result := none, passed := true } "e" "d" "Agreed to").2.2.2.2.2.2.2.2.2.1,
   (mergeVote_semantics "/votes/44-1/928/" "Paired" "44-1" "928" ⟨"C-56"⟩
      { bill := none, description := .plain "d", date := "2024-01-01",
        result := none, passed := true } "e" "d" "Agreed to").2.2.2.2.2.2.2.2.2.2⟩

/-- C5 counterexample: in the ballots endpoint's pipeline (the second
handler the claim cites), a ballot past the enrichment cap — here the 11th
of 11 — is appended as the plain raw ballot: its vote-detail fields are
absent (`none`), not `"unknown"` sentinels, and no `bill = "Motion"` field
exists on it, contradicting the claim as stated. -/
theorem beyondCap_ballots_counterexample :
    ((ballotsPipeline (fun _ => Except.error "offline")
        (List.replicate 11 { vote_url := "/votes/44-1/928/", ballot := "Yes" })).1)[10]? =
      some (rawBallotItem { vote_url := "/votes/44-1/928/", ballot := "Yes" }) ∧
    (rawBallotItem { vote_url := "/votes/44-1/928/", ballot := "Yes" }).vote_details = none ∧
    (rawBallotItem { vote_url := "/votes/44-1/928/", ballot := "Yes" }).date = none ∧
    (rawBallotItem { vote_url := "/votes/44-1/928/", ballot := "Yes" }).result = none := by
  refine ⟨by decide, rfl, rfl, rfl⟩

/-- C5 (amended): in the real-votes pipeline every ballot past the
enrichment cap is appended unenriched as an EnrichedVote with
`bill = "Motion"`, sentinel date and result, and the raw ballot choice; in
the ballots pipeline it is appended as the plain raw ballot with no
vote-detail fields attached. Neither pipeline issues a fetch for
beyond-cap ballots: the issued requests are exactly those of the capped
subset of the list. -/
theorem beyondCap_unenriched (π : Type)
    (fetchVote : String × String → Except String VoteData)
    (memberName : String) (ballots : List Ballot) (pagination : π)
    (i : Nat) (hcap : min 10 ballots.length ≤ i) :
    (((realVotesPipeline π fetchVote memberName ballots pagination).1).objects[i]? =
        (ballots[i]?).map unenrichedVote) ∧
    (∀ b : Ballot, (unenrichedVote b).bill = "Motion" ∧
        (unenrichedVote b).date = "Unknown date" ∧
        (unenrichedVote b).result = "Unknown" ∧
        (unenrichedVote b).vote = b.ballot) ∧
    ((realVotesPipeline π fetchVote memberName ballots pagination).2 =
        (realVotesPipeline π fetchVote memberName
          (ballots.take (min 10 ballots.length)) pagination).2) ∧
    (((ballotsPipeline fetchVote ballots).1)[i]? = (ballots[i]?).map rawBallotItem) ∧
    ((ballotsPipeline fetchVote ballots).2 =
        (ballotsPipeline fetchVote (ballots.take (min 10 ballots.length))).2) := by
  have htake : (ballots.take (min 10 ballots.length)).take
      (min 10 (ballots.take (min 10 ballots.length)).length) =
      ballots.take (min 10 ballots.length) := by
    rw [List.take_take]
    congr 1
    simp
  refine ⟨?_, fun b => ⟨rfl, rfl, rfl, rfl⟩, ?_, ?_, ?_⟩
  · rw [realVotes_objects_getElem]
    cases h : ballots[i]? <;> simp [h, Nat.not_lt.mpr hcap]
  · simp only [realVotesPipeline, htake]
  · rw [ballots_objects_getElem]
    cases h : ballots[i]? <;> simp [h, Nat.not_lt.mpr hcap]
  · simp only [ballotsPipeline, htake]

/-- Witness for C5 (amended): eleven concrete ballots; position 10 is past
the cap, so the real-votes pipeline holds the unenriched `"Motion"` item
there and the ballots pipeline the raw ballot. -/
theorem beyondCap_unenriched_witness :
    (min 10 (List.replicate 11
        ({ vote_url := "/votes/44-1/928/", ballot := "Yes" } : Ballot)).length ≤ 10) ∧
    (((realVotesPipeline Unit (fun _ => Except.error "offline") "joe"
        (List.replicate 11 { vote_url := "/votes/44-1/928/", ballot := "Yes" }) ()).1).objects[10]? =
      ((List.replicate 11
          ({ vote_url := "/votes/44-1/928/", ballot := "Yes" } : Ballot))[10]?).map
        unenrichedVote) ∧
    (((ballotsPipeline (fun _ => Except.error "offline")
        (List.replicate 11 { vote_url := "/votes/44-1/928/", ballot := "Yes" })).1)[10]? =
      ((List.replicate 11
          ({ vote_url := "/votes/44-1/928/", ballot := "Yes" } : Ballot))[10]?).map
        rawBallotItem) :=
  ⟨by decide,
   (beyondCap_unenriched Unit (fun _ => Except.error "offline") "joe"
      (List.replicate 11 { vote_url := "/votes/44-1/928/", ballot := "Yes" }) () 10
      (by decide)).1,
   (beyondCap_unenriched Unit (fun _ => Except.error "offline") "joe"
      (List.replicate 11 { vote_url := "/votes/44-1/928/", ballot := "Yes" }) () 10
      (by decide)).2.2.2.1⟩

/-- C6: on a cache miss, both enrichment endpoints answer an absent or
empty ballot collection with HTTP 404
`{error: "No voting history found for this member"}`, and a failed
ballot-list fetch with HTTP 500 `{error, details}`; in every one of these
cases the list of cache writes is empty. -/
theorem enrichment_endpoints_error_paths (π : Type)
    (fetchVote : String × String → Except String VoteData)
    (memberName msg : String) (pg : π) :
    (realVotesHandler π none (Except.error msg) fetchVote memberName =
        (.serverError "Failed to fetch ballot data" msg, [])) ∧
    (realVotesHandler π none (Except.ok { objects := none, pagination := pg })
        fetchVote memberName =
      (.notFound "No voting history found for this member", [])) ∧
    (realVotesHandler π none (Except.ok { objects := some [], pagination := pg })
        fetchVote memberName =
      (.notFound "No voting history found for this member", [])) ∧
    (ballotsHandler π none (Except.error msg) fetchVote memberName =
        (.serverError "Error fetching voting history" msg, [])) ∧
    (ballotsHandler π none (Except.ok { objects := none, pagination := pg })
        fetchVote memberName =
      (.notFound "No voting history found for this member", [])) ∧
    (ballotsHandler π none (Except.ok { objects := some [], pagination := pg })
        fetchVote memberName =
      (.notFound "No voting history found for this member", [])) :=
  ⟨rfl, rfl, rfl, rfl, rfl, rfl⟩

/-- C7 counterexample: the path `/politicians/joe/votes/3/` contains both a
politician segment and a votes segment, yet the first rule (vote-detail
shape: contains `/votes/` and does not end with it) matches first, so the
classifier returns DETAIL, not MEMBER_VOTES. -/
theorem classifyTTL_counterexample :
    strIncludes "/politicians/joe/votes/3/" "/politicians/" = true ∧
    strIncludes "/politicians/joe/votes/3/" "/votes/" = true ∧
    classifyTTL "/politicians/joe/votes/3/" = TTLTier.DETAIL ∧
    TTLTier.DETAIL ≠ TTLTier.MEMBER_VOTES := by
  refine ⟨by decide, by decide, by decide, by decide⟩

/-- C7 (amended): the classifier is a pure function of the path checking
the rules in order with first match winning; a path containing a
politician segment and a votes segment classifies to MEMBER_VOTES provided
no earlier rule matches first (it ends with `/votes/`, so it is not a
vote-detail shape, and contains no bills segment); the bare politician
collection path classifies to LIST; a politician detail path (politician
segment, not the bare collection, no votes or bills segment) classifies to
DETAIL; and the returned expiry instant is `now` plus the matched tier's
fixed duration. -/
theorem classifyTTL_tiers (endpoint : String) (now : Nat) :
    (strIncludes endpoint "/politicians/" = true →
      strIncludes endpoint "/votes/" = true →
      strEndsWith endpoint "/votes/" = true →
      strIncludes endpoint "/bills/" = false →
      classifyTTL endpoint = TTLTier.MEMBER_VOTES) ∧
    (classifyTTL "/politicians/" = TTLTier.LIST) ∧
    (strIncludes endpoint "/politicians/" = true →
      strEndsWith endpoint "/politicians/" = false →
      strIncludes endpoint "/votes/" = false →
      strIncludes endpoint "/bills/" = false →
      classifyTTL endpoint = TTLTier.DETAIL) ∧
    (getCacheExpiration endpoint now = now + CACHE_TTL (classifyTTL endpoint)) := by
  refine ⟨?_, by decide, ?_, rfl⟩
  · intro h1 h2 h3 h4
    simp [classifyTTL, h1, h2, h3, h4]
  · intro h1 h2 h3 h4
    simp [classifyTTL, h1, h2, h3, h4]

/-- Witness for C7 (amended): the member-votes collection path
`/politicians/pierre/votes/` classifies to MEMBER_VOTES, and the
politician detail path `/politicians/pierre/` classifies to DETAIL. -/
theorem classifyTTL_tiers_witness :
    (strIncludes "/politicians/pierre/votes/" "/politicians/" = true) ∧
    (strIncludes "/politicians/pierre/votes/" "/votes/" = true) ∧
    (strEndsWith "/politicians/pierre/votes/" "/votes/" = true) ∧
    (strIncludes "/politicians/pierre/votes/" "/bills/" = false) ∧
    (classifyTTL "/politicians/pierre/votes/" = TTLTier.MEMBER_VOTES) ∧
    (strIncludes "/politicians/pierre/" "/politicians/" = true) ∧
    (strEndsWith "/politicians/pierre/" "/politicians/" = false) ∧
    (strIncludes "/politicians/pierre/" "/votes/" = false) ∧
    (strIncludes "/politicians/pierre/" "/bills/" = false) ∧
    (classifyTTL "/politicians/pierre/" = TTLTier.DETAIL) :=
  ⟨by decide, by decide, by decide, by decide,
   (classifyTTL_tiers "/politicians/pierre/votes/" 0).1
     (by decide) (by decide) (by decide) (by decide),
   by decide, by decide, by decide, by decide,
   (classifyTTL_tiers "/politicians/pierre/" 0).2.2.1
     (by decide) (by decide) (by decide) (by decide)⟩

/-- C8: when the member-votes pass-through endpoint's upstream fetch fails
(on a durable-cache miss), it returns status 200 with an empty `objects`
array, a zero-count pagination object with the echoed limit/offset, and a
descriptive message — never an error status — and writes nothing. -/
theorem memberVotes_upstream_failure (α : Type) (memberName msg : String)
    (limit offset : Nat) :
    memberVotesHandler α none (Except.error msg) memberName limit offset =
      ({ status := 200
         body := .emptyFallback [] 0 none none limit offset
           ("No votes available for " ++ memberName ++ " or API error occurred") },
       []) :=
  rfl

/-- C9: a durable-store lookup at time `t` treats an entry whose expiry
instant is at most `t` identically to an absent entry: any returned row
has a strictly future expiry, and deleting a stale row from the store does
not change the lookup's result — the stale payload is never returned even
though the row is still physically present. -/
theorem durable_lookup_lazy_expiry (α : Type) :
    (∀ (store : List (MemberRecord α)) (url : String) (now : Nat)
        (r : MemberRecord α),
      memberFindOne α store url now = some r → now < r.expires) ∧
    (∀ (l1 l2 : List (MemberRecord α)) (e : MemberRecord α) (url : String)
        (now : Nat),
      e.expires ≤ now →
      memberFindOne α (l1 ++ e :: l2) url now = memberFindOne α (l1 ++ l2) url now) := by
  constructor
  · intro store url now r h
    have hp := List.find?_some h
    simp only [Bool.and_eq_true, decide_eq_true_eq] at hp
    exact hp.2
  · intro l1 l2 e url now h
    induction l1 with
    | nil =>
      simp only [List.nil_append, memberFindOne, List.find?_cons]
      have hd : decide (now < e.expires) = false := by
        simp [Nat.not_lt.mpr h]
      simp [hd]
    | cons a l1 ih =>
      simp only [List.cons_append, memberFindOne, List.find?_cons] at ih ⊢
      cases hpa : (a.url == url && decide (now < a.expires)) <;> simp [hpa, ih]

/-- Witness for C9: a store holding one live row (`expires = 9`) and one
stale row (`expires = 5`); at `now = 5` the lookup returns only the live
row (future expiry), and removing the stale row changes nothing. -/
theorem durable_lookup_lazy_expiry_witness :
    (memberFindOne String [{ url := "k", expires := 9, data := "live" }] "k" 5 =
        some { url := "k", expires := 9, data := "live" }) ∧
    ((5 : Nat) < 9) ∧
    (({ url := "k", expires := 5, data := "stale" } : MemberRecord String).expires ≤ 5) ∧
    (memberFindOne String
        ([{ url := "k", expires := 5, data := "stale" }] ++
          [{ url := "k", expires := 9, data := "live" }]) "k" 5 =
      memberFindOne String ([] ++ [{ url := "k", expires := 9, data := "live" }]) "k" 5) :=
  ⟨by decide,
   (durable_lookup_lazy_expiry String).1
     [{ url := "k", expires := 9, data := "live" }] "k" 5
     { url := "k", expires := 9, data := "live" } (by decide),
   by decide,
   (durable_lookup_lazy_expiry String).2
     [] [{ url := "k", expires := 9, data := "live" }]
     { url := "k", expires := 5, data := "stale" } "k" 5 (by decide)⟩

/-- C10: `fetchFromAPI` references the undefined identifier
`OPENPARLIAMENT_BASE_URL` (the module defines `API_BASE_URL` instead), so
for every path and every possible network behavior it throws, rethrown by
its catch as the prefixed `ReferenceError` message; consequently a
durable-cache miss on the member-list endpoint always reaches the 500
error path with that message and writes nothing, regardless of upstream. -/
theorem fetchFromAPI_always_fails (α : Type) :
    (∀ (doFetch : String → Except String α) (path : String),
      fetchFromAPI α doFetch path =
        Except.error
          "Failed to fetch data from OpenParliament API: OPENPARLIAMENT_BASE_URL is not defined") ∧
    (∀ (doFetch : String → Except String α) (cacheKey : String) (now : Nat),
      membersHandler α none doFetch cacheKey now =
        (.serverError
          "Failed to fetch data from OpenParliament API: OPENPARLIAMENT_BASE_URL is not defined",
         [])) := by
  have hbind : proxyModuleBinding "OPENPARLIAMENT_BASE_URL" = none := by decide
  constructor
  · intro doFetch path
    simp [fetchFromAPI, hbind]
  · intro doFetch cacheKey now
    simp [membersHandler, fetchFromAPI, hbind]

end ParliamentWatch
